import Mathlib

/-!
Shallow embedding of `src/tensor.rs` (crate `tensor`): a dense row-major
N-dimensional array with stride-based addressing, plus the bundled demo
program `examples/demo.rs`.

Modelling conventions:
* `f32` element values are only ever stored and retrieved, never computed
  with (the fills `0.0`, `1.0`, `value` are literals), so they are modelled
  by an inert scalar type with distinguished values `0` and `1` and
  decidable equality (`Rat`).
* Rust `Result<T, String>` is modelled as `Except TensorError T`, where
  `TensorError` records, as structured fields, exactly the values that the
  source interpolates into each error format string.
* A Rust panic (usize subtraction overflow, out-of-bounds `Vec` indexing,
  `.unwrap()` of `None`/`Err`) is modelled as `Option.none` at the
  outermost level: an operation of type `Option (Except TensorError T)`
  returns `none` exactly when the source aborts.
* Mutating methods (`set`, `reshape`, taking `&mut self`) return the
  post-state tensor alongside the `Result` value; the borrow-only methods
  (`get`, `reshaped`, taking `&self`) cannot write and return no
  post-state, and `get_mut` (which only hands out a reference) is modelled
  as returning the flat offset of the slot its `&mut f32` points to.
-/

/-- Inert model of Rust `f32`: elements are only stored and retrieved. -/
abbrev F32 := Rat

/-- Structured rendering of the four error strings produced by
`src/tensor.rs`; each constructor carries exactly the fields interpolated
into the corresponding format string, in source order. -/
inductive TensorError where
  | shapeMismatch (dataLen : Nat) (shape : List Nat) (totalSize : Nat)
  | rankMismatch (given : Nat) (expected : Nat)
  | indexOutOfBounds (index : Nat) (dim : Nat) (bound : Nat)
  | elementCountMismatch (newShape : List Nat) (newTotal : Nat) (curTotal : Nat)
  deriving DecidableEq, Repr

/-- The `Tensor` struct: flat `data` buffer, `shape`, derived `strides`. -/
structure Tensor where
  data : List F32
  shape : List Nat
  strides : List Nat
  deriving DecidableEq, Repr

/-- The recurrence computed by the loop in `Tensor::calculate_strides` for a
non-empty shape: `strides[R-1] = 1` and, walking `i` from `R-2` down to `0`,
`strides[i] = strides[i+1] * shape[i+1]`.  Expressed structurally: the
stride entry for the head of a shape `_ :: s :: rest` is the already
computed stride of `s` (the head of the recursive result) times `s`. -/
def stridesRec : List Nat → List Nat
  | [] => []
  | [_] => [1]
  | _ :: s :: rest => ((stridesRec (s :: rest)).headD 1 * s) :: stridesRec (s :: rest)

/-- Embeds `Tensor::calculate_strides`.  For an empty shape the source evaluates
`shape.len() - 1` on `usize`, which underflows: a debug build panics on the
subtraction and a release build wraps to `usize::MAX` and then panics
indexing the empty `strides` vector — either way the call aborts, modelled
as `none`.  For a non-empty shape the loop runs `stridesRec`. -/
def Tensor.calculate_strides (shape : List Nat) : Option (List Nat) :=
  match shape with
  | [] => none
  | _ :: _ => some (stridesRec shape)

/-- Embeds `Tensor::rank` (always `Ok(self.shape.len())`; every caller unwraps). -/
def Tensor.rank (t : Tensor) : Nat := t.shape.length

/-- Embeds `Tensor::numel` (always `Ok(self.data.len())`; every caller unwraps). -/
def Tensor.numel (t : Tensor) : Nat := t.data.length

/-- Embeds `Tensor::new`: rejects `data.len() != product(shape)` with the
shape-mismatch error, then derives strides (aborting on an empty shape). -/
def Tensor.new (data : List F32) (shape : List Nat) :
    Option (Except TensorError Tensor) :=
  let total_size := shape.prod
  if data.length ≠ total_size then
    some (Except.error (TensorError.shapeMismatch data.length shape total_size))
  else
    match Tensor.calculate_strides shape with
    | none => none
    | some strides => some (Except.ok ⟨data, shape, strides⟩)

/-- Embeds `Tensor::zeros`: buffer of `product(shape)` zeros, derived strides. -/
def Tensor.zeros (shape : List Nat) : Option (Except TensorError Tensor) :=
  let total_size := shape.prod
  let data : List F32 := List.replicate total_size 0
  match Tensor.calculate_strides shape with
  | none => none
  | some strides => some (Except.ok ⟨data, shape, strides⟩)

/-- Embeds `Tensor::ones`: buffer of `product(shape)` ones, derived strides. -/
def Tensor.ones (shape : List Nat) : Option (Except TensorError Tensor) :=
  let total_size := shape.prod
  let data : List F32 := List.replicate total_size 1
  match Tensor.calculate_strides shape with
  | none => none
  | some strides => some (Except.ok ⟨data, shape, strides⟩)

/-- Embeds `Tensor::full`: buffer of `product(shape)` copies of `value`. -/
def Tensor.full (shape : List Nat) (value : F32) :
    Option (Except TensorError Tensor) :=
  let total_size := shape.prod
  let data : List F32 := List.replicate total_size value
  match Tensor.calculate_strides shape with
  | none => none
  | some strides => some (Except.ok ⟨data, shape, strides⟩)

/-- The bounds-checking loop shared verbatim by `get`, `get_mut` and `set`:
walk `indices` with a running dimension counter, reporting the first entry
with `idx >= self.shape[dim]` as an index-out-of-bounds error.  It runs only
after the rank check, so `indices` and `shape` have equal length. -/
def checkBounds : List Nat → List Nat → Nat → Option TensorError
  | idx :: is, s :: ss, dim =>
      if s ≤ idx then some (TensorError.indexOutOfBounds idx dim s)
      else checkBounds is ss (dim + 1)
  | _, _, _ => none

/-- The accumulation in `Tensor::calculate_index`: `index += idx * strides[i]`
over the entries of `indices`.  Indexing `self.strides[i]` panics when
`strides` runs out before `indices` does, modelled as `none`. -/
def dotIdx : List Nat → List Nat → Option Nat
  | [], _ => some 0
  | i :: is, s :: ss => (dotIdx is ss).map (fun r => i * s + r)
  | _ :: _, [] => none

/-- Embeds `Tensor::calculate_index`: the linear offset of `indices`. -/
def Tensor.calculate_index (t : Tensor) (indices : List Nat) : Option Nat :=
  dotIdx indices t.strides

/-- Embeds `Tensor::get`: rank check, bounds check, then reads
`self.data.get(index).unwrap()` (aborting if the offset is out of range). -/
def Tensor.get (t : Tensor) (indices : List Nat) :
    Option (Except TensorError F32) :=
  if indices.length ≠ t.rank then
    some (Except.error (TensorError.rankMismatch indices.length t.rank))
  else
    match checkBounds indices t.shape 0 with
    | some e => some (Except.error e)
    | none =>
      match t.calculate_index indices with
      | none => none
      | some index =>
        match t.data.get? index with
        | none => none
        | some v => some (Except.ok v)

/-- Embeds `Tensor::get_mut`: identical validation to `get`; the returned
`&mut f32` is modelled by the flat offset of the buffer slot it points to
(`self.data.get_mut(index).unwrap()` aborts on an out-of-range offset). -/
def Tensor.get_mut (t : Tensor) (indices : List Nat) :
    Option (Except TensorError Nat) :=
  if indices.length ≠ t.rank then
    some (Except.error (TensorError.rankMismatch indices.length t.rank))
  else
    match checkBounds indices t.shape 0 with
    | some e => some (Except.error e)
    | none =>
      match t.calculate_index indices with
      | none => none
      | some index =>
        match t.data.get? index with
        | none => none
        | some _ => some (Except.ok index)

/-- Embeds `Tensor::set`: identical validation, then `self.data[index] = value`
(the `IndexMut` write aborts if the offset is out of range).  Returns the
`Result` together with the post-state of `self`. -/
def Tensor.set (t : Tensor) (indices : List Nat) (value : F32) :
    Option (Except TensorError Unit × Tensor) :=
  if indices.length ≠ t.rank then
    some (Except.error (TensorError.rankMismatch indices.length t.rank), t)
  else
    match checkBounds indices t.shape 0 with
    | some e => some (Except.error e, t)
    | none =>
      match t.calculate_index indices with
      | none => none
      | some index =>
        if index < t.data.length then
          some (Except.ok (), { t with data := t.data.set index value })
        else none

/-- Embeds `Tensor::reshape` (in place): rejects an element-count mismatch, then
replaces `shape` and recomputes `strides` (recomputation aborts on an empty
new shape).  Returns the `Result` together with the post-state of `self`. -/
def Tensor.reshape (t : Tensor) (new_shape : List Nat) :
    Option (Except TensorError Unit × Tensor) :=
  let total_size := new_shape.prod
  if total_size ≠ t.numel then
    some (Except.error
      (TensorError.elementCountMismatch new_shape total_size t.numel), t)
  else
    match Tensor.calculate_strides new_shape with
    | none => none
    | some strides =>
      some (Except.ok (), { t with shape := new_shape, strides := strides })

/-- Embeds `Tensor::reshaped` (copying): same validation as `reshape`; builds a new
tensor from a clone of the buffer, leaving the receiver untouched. -/
def Tensor.reshaped (t : Tensor) (new_shape : List Nat) :
    Option (Except TensorError Tensor) :=
  let total_size := new_shape.prod
  if total_size ≠ t.numel then
    some (Except.error
      (TensorError.elementCountMismatch new_shape total_size t.numel))
  else
    match Tensor.calculate_strides new_shape with
    | none => none
    | some strides => some (Except.ok ⟨t.data, new_shape, strides⟩)

/-- Embeds the `main` of `examples/demo.rs`: builds `data = [1.0, 2.0, 3.0, 4.0]` and
`shape = [2, 447]`, unwraps `Tensor::new`, and prints the tensor's data.
The returned value is the printed buffer; `none` models the program
aborting (the `unwrap` of an `Err`, or any earlier panic) before printing. -/
def demoMain : Option (List F32) :=
  match Tensor.new [1, 2, 3, 4] [2, 447] with
  | some (Except.ok t) => some t.data
  | _ => none

/-- A multi-index is valid for a shape when it has one entry per dimension
and each entry is strictly below that dimension's size. -/
def validIdx : List Nat → List Nat → Bool
  | [], [] => true
  | i :: is, s :: ss => decide (i < s) && validIdx is ss
  | _, _ => false

/-- Propositional form of `validIdx` (decidable by construction). -/
def Valid (idx shape : List Nat) : Prop := validIdx idx shape = true

instance (idx shape : List Nat) : Decidable (Valid idx shape) := by
  unfold Valid; infer_instance

/-- The specification's offset formula: `sum(idx[d] * strides[d])`, the dot
product of a multi-index with the stride table. -/
def dotProd : List Nat → List Nat → Nat
  | i :: is, s :: ss => i * s + dotProd is ss
  | _, _ => 0

/-- The first three data-model invariants of the spec, stated on the struct:
`data.len() = product(shape)`, `strides.len() = shape.len()`, and `strides`
is exactly what the stride-derivation algorithm produces for `shape`. -/
def Tensor.WF (t : Tensor) : Prop :=
  t.data.length = t.shape.prod ∧
  t.strides.length = t.shape.length ∧
  Tensor.calculate_strides t.shape = some t.strides

instance (t : Tensor) : Decidable t.WF := by
  unfold Tensor.WF; infer_instance

/-- The fourth data-model invariant: every valid multi-index's linear offset
lands inside the buffer. -/
def Tensor.Inv4 (t : Tensor) : Prop :=
  ∀ idx, Valid idx t.shape → dotProd idx t.strides < t.data.length

/-- All four data-model invariants of the spec. -/
def Tensor.Invariants (t : Tensor) : Prop := t.WF ∧ t.Inv4

/-- Decidable equality of `Except` results, for evaluating the embedding
on concrete inputs. -/
instance {e a : Type} [DecidableEq e] [DecidableEq a] :
    DecidableEq (Except e a) := fun x y =>
  match x, y with
  | Except.error e1, Except.error e2 => decidable_of_iff (e1 = e2) (by simp)
  | Except.error _, Except.ok _ => isFalse (by simp)
  | Except.ok _, Except.error _ => isFalse (by simp)
  | Except.ok a1, Except.ok a2 => decidable_of_iff (a1 = a2) (by simp)


/-! Structural lemmas about the stride table -/

lemma stridesRec_cons (s : Nat) (rest : List Nat) :
    stridesRec (s :: rest) = rest.prod :: stridesRec rest := by
  induction rest generalizing s with
  | nil => simp [stridesRec]
  | cons s1 r ih =>
    rw [stridesRec, ih s1]
    simp [List.prod_cons, Nat.mul_comm]

lemma stridesRec_length (l : List Nat) : (stridesRec l).length = l.length := by
  induction l with
  | nil => rfl
  | cons s rest ih => rw [stridesRec_cons]; simp [ih]

lemma valid_length {idx shape : List Nat} (h : Valid idx shape) :
    idx.length = shape.length := by
  induction idx generalizing shape with
  | nil => cases shape with
    | nil => rfl
    | cons s ss => simp [Valid, validIdx] at h
  | cons i is ih =>
    cases shape with
    | nil => simp [Valid, validIdx] at h
    | cons s ss =>
      simp only [Valid, validIdx, Bool.and_eq_true, decide_eq_true_eq] at h
      simp [ih h.2]

lemma valid_cons {i : Nat} {is s ss} :
    Valid (i :: is) (s :: ss) ↔ i < s ∧ Valid is ss := by
  simp [Valid, validIdx]

lemma dot_lt_prod : ∀ (shape idx : List Nat), Valid idx shape →
    dotProd idx (stridesRec shape) < shape.prod := by
  intro shape
  induction shape with
  | nil =>
    intro idx h
    cases idx with
    | nil => simp [dotProd, stridesRec]
    | cons i is => simp [Valid, validIdx] at h
  | cons s rest ih =>
    intro idx h
    cases idx with
    | nil => simp [Valid, validIdx] at h
    | cons i is =>
      rw [valid_cons] at h
      rw [stridesRec_cons, dotProd, List.prod_cons]
      calc i * rest.prod + dotProd is (stridesRec rest)
          < i * rest.prod + rest.prod := by
            exact Nat.add_lt_add_left (ih is h.2) _
        _ = (i + 1) * rest.prod := by ring
        _ ≤ s * rest.prod := Nat.mul_le_mul_right _ h.1

lemma dot_inj : ∀ (shape idx1 idx2 : List Nat), Valid idx1 shape →
    Valid idx2 shape →
    dotProd idx1 (stridesRec shape) = dotProd idx2 (stridesRec shape) →
    idx1 = idx2 := by
  intro shape
  induction shape with
  | nil =>
    intro idx1 idx2 h1 h2 _
    cases idx1 with
    | nil => cases idx2 with
      | nil => rfl
      | cons j js => simp [Valid, validIdx] at h2
    | cons i is => simp [Valid, validIdx] at h1
  | cons s rest ih =>
    intro idx1 idx2 h1 h2 heq
    cases idx1 with
    | nil => simp [Valid, validIdx] at h1
    | cons i is =>
      cases idx2 with
      | nil => simp [Valid, validIdx] at h2
      | cons j js =>
        rw [valid_cons] at h1 h2
        rw [stridesRec_cons, dotProd, dotProd] at heq
        have hr1 : dotProd is (stridesRec rest) < rest.prod :=
          dot_lt_prod rest is h1.2
        have hr2 : dotProd js (stridesRec rest) < rest.prod :=
          dot_lt_prod rest js h2.2
        have hP : 0 < rest.prod := Nat.lt_of_le_of_lt (Nat.zero_le _) hr1
        have hij : i = j := by
          have e1 : (i * rest.prod + dotProd is (stridesRec rest)) / rest.prod = i := by
            rw [Nat.mul_comm i, Nat.mul_add_div hP, Nat.div_eq_of_lt hr1]
            omega
          have e2 : (j * rest.prod + dotProd js (stridesRec rest)) / rest.prod = j := by
            rw [Nat.mul_comm j, Nat.mul_add_div hP, Nat.div_eq_of_lt hr2]
            omega
          rw [← e1, ← e2, heq]
        subst hij
        have hrest : dotProd is (stridesRec rest) = dotProd js (stridesRec rest) :=
          Nat.add_left_cancel heq
        rw [ih is js h1.2 h2.2 hrest]

/-! The shared validation loop -/

lemma checkBounds_none_of_valid : ∀ (idx shape : List Nat) (k : Nat),
    Valid idx shape → checkBounds idx shape k = none := by
  intro idx
  induction idx with
  | nil => intro shape k _; cases shape <;> rfl
  | cons i is ih =>
    intro shape k h
    cases shape with
    | nil => simp [Valid, validIdx] at h
    | cons s ss =>
      rw [valid_cons] at h
      rw [checkBounds, if_neg (Nat.not_le_of_lt h.1)]
      exact ih ss (k + 1) h.2

lemma checkBounds_first_oob : ∀ (idx shape : List Nat) (k : Nat),
    idx.length = shape.length → ¬ Valid idx shape →
    ∃ d, d < idx.length ∧ shape.getD d 0 ≤ idx.getD d 0 ∧
      (∀ j, j < d → idx.getD j 0 < shape.getD j 0) ∧
      checkBounds idx shape k =
        some (TensorError.indexOutOfBounds (idx.getD d 0) (k + d) (shape.getD d 0)) := by
  intro idx
  induction idx with
  | nil =>
    intro shape k hlen hnv
    cases shape with
    | nil => exact absurd rfl hnv
    | cons s ss => simp at hlen
  | cons i is ih =>
    intro shape k hlen hnv
    cases shape with
    | nil => simp at hlen
    | cons s ss =>
      by_cases hi : s ≤ i
      · refine ⟨0, by simp, by simpa using hi, by omega, ?_⟩
        rw [checkBounds, if_pos hi]
        simp
      · have hnv' : ¬ Valid is ss := by
          intro hv
          exact hnv (valid_cons.mpr ⟨Nat.lt_of_not_le hi, hv⟩)
        obtain ⟨d, hd, hge, hfirst, heq⟩ := ih ss (k + 1) (by simpa using hlen) hnv'
        refine ⟨d + 1, by simpa using hd, by simpa using hge, ?_, ?_⟩
        · intro j hj
          cases j with
          | zero => simpa using Nat.lt_of_not_le hi
          | succ j' => simpa using hfirst j' (Nat.lt_of_succ_lt_succ hj)
        · have hk : k + 1 + d = k + (d + 1) := by omega
          rw [checkBounds, if_neg hi, heq, hk]
          simp [List.getD_cons_succ]

lemma dotIdx_eq_dotProd : ∀ (idx strides : List Nat),
    idx.length ≤ strides.length → dotIdx idx strides = some (dotProd idx strides) := by
  intro idx
  induction idx with
  | nil => intro strides _; rfl
  | cons i is ih =>
    intro strides h
    cases strides with
    | nil => simp at h
    | cons s ss =>
      rw [dotIdx, ih ss (by simpa using h)]
      rfl

/-! Consequences of well-formedness -/

lemma wf_strides {t : Tensor} (h : t.WF) : t.strides = stridesRec t.shape := by
  obtain ⟨-, -, h3⟩ := h
  unfold Tensor.calculate_strides at h3
  cases hs : t.shape with
  | nil => rw [hs] at h3; exact absurd h3 (by simp)
  | cons s ss => rw [hs] at h3; simpa using h3.symm

lemma wf_shape_ne_nil {t : Tensor} (h : t.WF) : t.shape ≠ [] := by
  obtain ⟨-, -, h3⟩ := h
  intro hs
  rw [hs] at h3
  exact absurd h3 (by simp [Tensor.calculate_strides])

lemma wf_inv4 {t : Tensor} (h : t.WF) : t.Inv4 := by
  intro idx hv
  rw [wf_strides h, h.1]
  exact dot_lt_prod t.shape idx hv

lemma wf_invariants {t : Tensor} (h : t.WF) : t.Invariants := ⟨h, wf_inv4 h⟩

lemma calculate_strides_wf {shape strides : List Nat} {data : List F32}
    (hlen : data.length = shape.prod)
    (hcs : Tensor.calculate_strides shape = some strides) :
    (Tensor.mk data shape strides).WF := by
  refine ⟨hlen, ?_, hcs⟩
  cases shape with
  | nil => exact absurd hcs (by simp [Tensor.calculate_strides])
  | cons s ss =>
    unfold Tensor.calculate_strides at hcs
    simp only [Option.some_inj] at hcs
    rw [← hcs]
    exact stridesRec_length _

/-! Behavior of `get`, `get_mut`, `set` on validated input -/

lemma valid_rank {t : Tensor} {idx : List Nat} (hv : Valid idx t.shape) :
    idx.length = t.rank := valid_length hv

lemma calculate_index_valid {t : Tensor} (ht : t.WF) {idx : List Nat}
    (hv : Valid idx t.shape) :
    t.calculate_index idx = some (dotProd idx t.strides) := by
  unfold Tensor.calculate_index
  exact dotIdx_eq_dotProd idx t.strides
    (le_of_eq (by rw [valid_length hv, ht.2.1]))

lemma get_valid {t : Tensor} (ht : t.WF) {idx : List Nat} (hv : Valid idx t.shape) :
    t.get idx = (t.data.get? (dotProd idx t.strides)).map Except.ok ∧
    dotProd idx t.strides < t.data.length := by
  have hoff : dotProd idx t.strides < t.data.length := wf_inv4 ht idx hv
  refine ⟨?_, hoff⟩
  unfold Tensor.get
  rw [if_neg (by simp [valid_rank hv]), checkBounds_none_of_valid _ _ _ hv,
    calculate_index_valid ht hv]
  simp only [List.get?_eq_getElem?, List.getElem?_eq_getElem hoff]
  rfl

lemma get_mut_valid {t : Tensor} (ht : t.WF) {idx : List Nat} (hv : Valid idx t.shape) :
    t.get_mut idx = some (Except.ok (dotProd idx t.strides)) := by
  have hoff : dotProd idx t.strides < t.data.length := wf_inv4 ht idx hv
  unfold Tensor.get_mut
  rw [if_neg (by simp [valid_rank hv]), checkBounds_none_of_valid _ _ _ hv,
    calculate_index_valid ht hv]
  simp only [List.get?_eq_getElem?, List.getElem?_eq_getElem hoff]

lemma set_valid {t : Tensor} (ht : t.WF) {idx : List Nat} (hv : Valid idx t.shape)
    (v : F32) :
    t.set idx v = some (Except.ok (),
      { t with data := t.data.set (dotProd idx t.strides) v }) := by
  have hoff : dotProd idx t.strides < t.data.length := wf_inv4 ht idx hv
  unfold Tensor.set
  rw [if_neg (by simp [valid_rank hv]), checkBounds_none_of_valid _ _ _ hv,
    calculate_index_valid ht hv]
  simp [if_pos hoff]

/-! Error paths of `get`, `get_mut`, `set` -/

lemma get_rank_mismatch {t : Tensor} {idx : List Nat} (h : idx.length ≠ t.rank) :
    t.get idx = some (Except.error (TensorError.rankMismatch idx.length t.rank)) := by
  unfold Tensor.get
  rw [if_pos h]

lemma get_mut_rank_mismatch {t : Tensor} {idx : List Nat} (h : idx.length ≠ t.rank) :
    t.get_mut idx =
      some (Except.error (TensorError.rankMismatch idx.length t.rank)) := by
  unfold Tensor.get_mut
  rw [if_pos h]

lemma set_rank_mismatch {t : Tensor} {idx : List Nat} (h : idx.length ≠ t.rank)
    (v : F32) :
    t.set idx v =
      some (Except.error (TensorError.rankMismatch idx.length t.rank), t) := by
  unfold Tensor.set
  rw [if_pos h]

lemma get_oob {t : Tensor} {idx : List Nat} {e : TensorError}
    (hlen : idx.length = t.rank) (hcb : checkBounds idx t.shape 0 = some e) :
    t.get idx = some (Except.error e) := by
  unfold Tensor.get
  rw [if_neg (by simp [hlen]), hcb]

lemma get_mut_oob {t : Tensor} {idx : List Nat} {e : TensorError}
    (hlen : idx.length = t.rank) (hcb : checkBounds idx t.shape 0 = some e) :
    t.get_mut idx = some (Except.error e) := by
  unfold Tensor.get_mut
  rw [if_neg (by simp [hlen]), hcb]

lemma set_oob {t : Tensor} {idx : List Nat} {e : TensorError}
    (hlen : idx.length = t.rank) (hcb : checkBounds idx t.shape 0 = some e)
    (v : F32) :
    t.set idx v = some (Except.error e, t) := by
  unfold Tensor.set
  rw [if_neg (by simp [hlen]), hcb]

/-! Pointwise description of the stride table -/

lemma stridesRec_getLast : ∀ (s : Nat) (rest : List Nat),
    (stridesRec (s :: rest)).getLast? = some 1 := by
  intro s rest
  induction rest generalizing s with
  | nil => rfl
  | cons s1 r ih =>
    rw [stridesRec_cons]
    have h1 := ih s1
    cases hr : stridesRec (s1 :: r) with
    | nil => rw [hr] at h1; simp at h1
    | cons a as =>
      rw [hr] at h1
      rw [List.getLast?_cons_cons]
      exact h1

lemma stridesRec_getD : ∀ (shape : List Nat) (d : Nat), d < shape.length →
    (stridesRec shape).getD d 0 = (shape.drop (d + 1)).prod := by
  intro shape
  induction shape with
  | nil => intro d hd; simp at hd
  | cons s rest ih =>
    intro d hd
    rw [stridesRec_cons]
    cases d with
    | zero => simp
    | succ d' =>
      rw [List.getD_cons_succ, List.drop_succ_cons]
      exact ih d' (by simpa using hd)

lemma stridesRec_recurrence : ∀ (shape : List Nat) (d : Nat),
    d + 1 < shape.length →
    (stridesRec shape).getD d 0 =
      (stridesRec shape).getD (d + 1) 0 * shape.getD (d + 1) 0 := by
  intro shape d hd
  rw [stridesRec_getD shape d (Nat.lt_of_succ_lt hd),
    stridesRec_getD shape (d + 1) hd]
  rw [List.drop_eq_getElem_cons hd, List.prod_cons]
  rw [List.getD_eq_getElem _ _ hd]
  ring

/-! Inversion of the constructors and reshape -/

lemma new_ok_inv {data : List F32} {shape : List Nat} {t' : Tensor}
    (h : Tensor.new data shape = some (Except.ok t')) :
    data.length = shape.prod ∧
      Tensor.calculate_strides shape = some t'.strides ∧
      t'.data = data ∧ t'.shape = shape := by
  unfold Tensor.new at h
  dsimp only at h
  split at h
  · simp at h
  · rename_i hne
    split at h
    · simp at h
    · rename_i st hcs
      simp only [Option.some_inj, Except.ok.injEq] at h
      subst h
      exact ⟨by omega, hcs, rfl, rfl⟩

lemma new_err_inv {data : List F32} {shape : List Nat} {e : TensorError}
    (h : Tensor.new data shape = some (Except.error e)) :
    data.length ≠ shape.prod ∧
      e = TensorError.shapeMismatch data.length shape shape.prod := by
  unfold Tensor.new at h
  dsimp only at h
  split at h
  · rename_i hne
    simp only [Option.some_inj, Except.error.injEq] at h
    exact ⟨hne, h.symm⟩
  · split at h
    · simp at h
    · simp at h

lemma full_ok_inv {shape : List Nat} {v : F32} {t' : Tensor}
    (h : Tensor.full shape v = some (Except.ok t')) :
    Tensor.calculate_strides shape = some t'.strides ∧
      t'.data = List.replicate shape.prod v ∧ t'.shape = shape := by
  unfold Tensor.full at h
  dsimp only at h
  split at h
  · simp at h
  · rename_i st hcs
    simp only [Option.some_inj, Except.ok.injEq] at h
    subst h
    exact ⟨hcs, rfl, rfl⟩

lemma zeros_ok_inv {shape : List Nat} {t' : Tensor}
    (h : Tensor.zeros shape = some (Except.ok t')) :
    Tensor.calculate_strides shape = some t'.strides ∧
      t'.data = List.replicate shape.prod 0 ∧ t'.shape = shape := by
  unfold Tensor.zeros at h
  dsimp only at h
  split at h
  · simp at h
  · rename_i st hcs
    simp only [Option.some_inj, Except.ok.injEq] at h
    subst h
    exact ⟨hcs, rfl, rfl⟩

lemma ones_ok_inv {shape : List Nat} {t' : Tensor}
    (h : Tensor.ones shape = some (Except.ok t')) :
    Tensor.calculate_strides shape = some t'.strides ∧
      t'.data = List.replicate shape.prod 1 ∧ t'.shape = shape := by
  unfold Tensor.ones at h
  dsimp only at h
  split at h
  · simp at h
  · rename_i st hcs
    simp only [Option.some_inj, Except.ok.injEq] at h
    subst h
    exact ⟨hcs, rfl, rfl⟩

lemma reshape_ok_inv {t : Tensor} {ns : List Nat} {t' : Tensor}
    (h : t.reshape ns = some (Except.ok (), t')) :
    ns.prod = t.numel ∧
      Tensor.calculate_strides ns = some t'.strides ∧
      t'.data = t.data ∧ t'.shape = ns := by
  unfold Tensor.reshape at h
  dsimp only at h
  split at h
  · simp at h
  · rename_i hne
    split at h
    · simp at h
    · rename_i st hcs
      simp only [Option.some_inj, Prod.mk.injEq] at h
      rw [← h.2]
      exact ⟨by omega, hcs, rfl, rfl⟩

lemma reshape_err_inv {t : Tensor} {ns : List Nat} {e : TensorError} {t' : Tensor}
    (h : t.reshape ns = some (Except.error e, t')) :
    ns.prod ≠ t.numel ∧ t' = t ∧
      e = TensorError.elementCountMismatch ns ns.prod t.numel := by
  unfold Tensor.reshape at h
  dsimp only at h
  split at h
  · rename_i hne
    simp only [Option.some_inj, Prod.mk.injEq, Except.error.injEq] at h
    exact ⟨hne, h.2.symm, h.1.symm⟩
  · split at h
    · simp at h
    · simp at h

lemma reshaped_ok_inv {t : Tensor} {ns : List Nat} {t' : Tensor}
    (h : t.reshaped ns = some (Except.ok t')) :
    ns.prod = t.numel ∧
      Tensor.calculate_strides ns = some t'.strides ∧
      t'.data = t.data ∧ t'.shape = ns := by
  unfold Tensor.reshaped at h
  dsimp only at h
  split at h
  · simp at h
  · rename_i hne
    split at h
    · simp at h
    · rename_i st hcs
      simp only [Option.some_inj, Except.ok.injEq] at h
      subst h
      exact ⟨by omega, hcs, rfl, rfl⟩

lemma reshaped_err_inv {t : Tensor} {ns : List Nat} {e : TensorError}
    (h : t.reshaped ns = some (Except.error e)) :
    ns.prod ≠ t.numel ∧
      e = TensorError.elementCountMismatch ns ns.prod t.numel := by
  unfold Tensor.reshaped at h
  dsimp only at h
  split at h
  · rename_i hne
    simp only [Option.some_inj, Except.error.injEq] at h
    exact ⟨hne, h.symm⟩
  · split at h
    · simp at h
    · simp at h

lemma set_error_unchanged {t : Tensor} {idx : List Nat} {v : F32}
    {e : TensorError} {t' : Tensor}
    (h : t.set idx v = some (Except.error e, t')) : t' = t := by
  unfold Tensor.set at h
  split at h
  · simp only [Option.some_inj, Prod.mk.injEq] at h
    exact h.2.symm
  · split at h
    · simp only [Option.some_inj, Prod.mk.injEq] at h
      exact h.2.symm
    · split at h
      · simp at h
      · split at h
        · simp at h
        · simp at h

lemma wf_of_parts {t' : Tensor} (h1 : t'.data.length = t'.shape.prod)
    (h3 : Tensor.calculate_strides t'.shape = some t'.strides) : t'.WF := by
  refine ⟨h1, ?_, h3⟩
  cases hs : t'.shape with
  | nil => rw [hs] at h3; simp [Tensor.calculate_strides] at h3
  | cons s ss =>
    rw [hs] at h3
    unfold Tensor.calculate_strides at h3
    simp only [Option.some_inj] at h3
    rw [← h3]
    exact stridesRec_length _

lemma wf_set_data {t : Tensor} (ht : t.WF) (off : Nat) (v : F32) :
    (Tensor.mk (t.data.set off v) t.shape t.strides).WF := by
  refine ⟨?_, ht.2.1, ht.2.2⟩
  simpa [List.length_set] using ht.1

lemma set_ok_inv {t : Tensor} {idx : List Nat} {v : F32} {u : Unit} {t' : Tensor}
    (h : t.set idx v = some (Except.ok u, t')) :
    ∃ index, t.calculate_index idx = some index ∧ index < t.data.length ∧
      t' = { t with data := t.data.set index v } := by
  unfold Tensor.set at h
  split at h
  · simp at h
  · split at h
    · simp at h
    · split at h
      · simp at h
      · rename_i index hidx
        split at h
        · rename_i hlt
          simp only [Option.some_inj, Prod.mk.injEq] at h
          exact ⟨index, hidx, hlt, h.2.symm⟩
        · simp at h

lemma get_mut_ok_inv {t : Tensor} {idx : List Nat} {off : Nat}
    (h : t.get_mut idx = some (Except.ok off)) :
    t.calculate_index idx = some off ∧ off < t.data.length := by
  unfold Tensor.get_mut at h
  split at h
  · simp at h
  · split at h
    · simp at h
    · split at h
      · simp at h
      · rename_i index hidx
        split at h
        · simp at h
        · rename_i v hv
          simp only [Option.some_inj, Except.ok.injEq] at h
          subst h
          refine ⟨hidx, ?_⟩
          have := List.get?_eq_some.mp hv
          exact this.1

/-! Claims -/

/-- Claim C1: the stride table produced by the stride-derivation routine
(shared by every constructor and by reshape) follows the row-major rule —
one stride per dimension, the last stride is `1`, and each earlier stride
is the next stride times the next dimension's size; concretely, shape
`[2,3,4]` derives strides `[12,4,1]`. -/
theorem C1_strides_row_major :
    (∀ (shape strides : List Nat),
        Tensor.calculate_strides shape = some strides →
        strides.length = shape.length ∧
        strides.getLast? = some 1 ∧
        ∀ d, d + 1 < shape.length →
          strides.getD d 0 = strides.getD (d + 1) 0 * shape.getD (d + 1) 0) ∧
    Tensor.calculate_strides [2, 3, 4] = some [12, 4, 1] := by
  constructor
  · intro shape strides hcs
    cases shape with
    | nil => simp [Tensor.calculate_strides] at hcs
    | cons s ss =>
      unfold Tensor.calculate_strides at hcs
      simp only [Option.some_inj] at hcs
      subst hcs
      exact ⟨stridesRec_length _, stridesRec_getLast s ss,
        fun d hd => stridesRec_recurrence _ d hd⟩
  · decide

/-- Witness for C1 at shape `[2,3,4]` and strides `[12,4,1]`. -/
theorem C1_strides_row_major_witness :
    Tensor.calculate_strides [2, 3, 4] = some [12, 4, 1] ∧
      (([12, 4, 1] : List Nat).length = ([2, 3, 4] : List Nat).length ∧
        ([12, 4, 1] : List Nat).getLast? = some 1 ∧
        ∀ d, d + 1 < ([2, 3, 4] : List Nat).length →
          ([12, 4, 1] : List Nat).getD d 0 =
            ([12, 4, 1] : List Nat).getD (d + 1) 0 *
              ([2, 3, 4] : List Nat).getD (d + 1) 0) :=
  ⟨by decide, C1_strides_row_major.1 [2, 3, 4] [12, 4, 1] (by decide)⟩

/-- Claim C5 fails on the code: `reshape`/`reshaped` do not succeed whenever
the new shape's element count matches `numel()` — for the rank-0 target
shape `[]` on a one-element tensor the element counts agree (`1 = 1`), yet
both operations abort in the stride recomputation (`usize` underflow in
`calculate_strides`) instead of succeeding. -/
theorem C5_reshape_rank0_aborts :
    Tensor.new [(1 : F32)] [1] =
      some (Except.ok (Tensor.mk [(1 : F32)] [1] [1])) ∧
    ([] : List Nat).prod = (Tensor.mk [(1 : F32)] [1] [1]).numel ∧
    Tensor.reshape (Tensor.mk [(1 : F32)] [1] [1]) [] = none ∧
    Tensor.reshaped (Tensor.mk [(1 : F32)] [1] [1]) [] = none := by
  refine ⟨?_, by decide, by decide, by decide⟩
  decide

/-- Claim C6: reshaping the `[2,3]` tensor over data `[1,2,3,4,5,6]` to
`[3,2]` keeps the flat buffer identical, and `get([1,0])` on the result
equals `get([0,2])` on the original — both resolving to flat offset 2. -/
theorem C6_reshape_preserves_flat_order :
    Tensor.new [1, 2, 3, 4, 5, 6] [2, 3] =
      some (Except.ok (Tensor.mk [1, 2, 3, 4, 5, 6] [2, 3] [3, 1])) ∧
    Tensor.reshaped (Tensor.mk [1, 2, 3, 4, 5, 6] [2, 3] [3, 1]) [3, 2] =
      some (Except.ok (Tensor.mk [1, 2, 3, 4, 5, 6] [3, 2] [2, 1])) ∧
    (Tensor.mk [1, 2, 3, 4, 5, 6] [3, 2] [2, 1]).data = [1, 2, 3, 4, 5, 6] ∧
    (Tensor.mk [1, 2, 3, 4, 5, 6] [3, 2] [2, 1]).get [1, 0] =
      (Tensor.mk [1, 2, 3, 4, 5, 6] [2, 3] [3, 1]).get [0, 2] ∧
    (Tensor.mk [1, 2, 3, 4, 5, 6] [2, 3] [3, 1]).get [0, 2] =
      some (Except.ok 3) ∧
    (Tensor.mk [1, 2, 3, 4, 5, 6] [3, 2] [2, 1]).calculate_index [1, 0] =
      some 2 ∧
    (Tensor.mk [1, 2, 3, 4, 5, 6] [2, 3] [3, 1]).calculate_index [0, 2] =
      some 2 := by
  decide

/-- Claim C7 fails on the code: `Tensor::new` does not succeed whenever
`len(D) = product(S)` — for the empty shape with a one-element buffer the
lengths agree (`1 = 1`), yet `new` aborts deriving the strides (`usize`
underflow in `calculate_strides`) instead of succeeding. -/
theorem C7_new_rank0_aborts :
    ([(1 : F32)] : List F32).length = ([] : List Nat).prod ∧
    Tensor.new [(1 : F32)] [] = none := by
  decide

/-- Claim C8 fails on the code: rank-0 tensors are not supported — the
stride derivation aborts on the empty shape (`shape.len() - 1` underflows
`usize`) instead of yielding an empty stride table, so `new`, `zeros`,
`ones` and `full` all abort on shape `[]`. -/
theorem C8_rank0_constructors_abort :
    Tensor.calculate_strides [] = none ∧
    Tensor.new [(0 : F32)] [] = none ∧
    Tensor.zeros [] = none ∧
    Tensor.ones [] = none ∧
    Tensor.full [] 7 = none := by
  decide

/-- Claim C10: the demo program builds `Tensor::new([1,2,3,4], [2,447])`,
whose element-count product is `894 ≠ 4`, so `new` reports the
shape-mismatch error and the demo's `unwrap` aborts before printing. -/
theorem C10_demo_always_panics :
    Tensor.new [1, 2, 3, 4] [2, 447] =
      some (Except.error (TensorError.shapeMismatch 4 [2, 447] 894)) ∧
    demoMain = none := by
  decide

/-- Claim C9: validation precedes all writes — whenever a mutating public
operation returns an error, the tensor is exactly as it was before the
call.  In this embedding only `set` and `reshape` take the receiver by
mutable reference and return a post-state; `new`, `get`, `reshaped` borrow
the tensor immutably and `get_mut` only hands out a reference, so they
cannot mutate by construction. -/
theorem C9_no_partial_mutation_on_failure :
    (∀ (t : Tensor) (idx : List Nat) (v : F32) (e : TensorError) (t' : Tensor),
        t.set idx v = some (Except.error e, t') → t' = t) ∧
    (∀ (t : Tensor) (ns : List Nat) (e : TensorError) (t' : Tensor),
        t.reshape ns = some (Except.error e, t') → t' = t) :=
  ⟨fun _ _ _ _ _ h => set_error_unchanged h,
   fun _ _ _ _ h => (reshape_err_inv h).2.1⟩

/-- Witness for C9: an out-of-bounds `set` on a concrete `[2,3]` tensor
fails and leaves the tensor unchanged. -/
theorem C9_no_partial_mutation_on_failure_witness :
    (Tensor.mk [1, 2, 3, 4, 5, 6] [2, 3] [3, 1]).set [0, 9] 7 =
      some (Except.error (TensorError.indexOutOfBounds 9 1 3),
        Tensor.mk [1, 2, 3, 4, 5, 6] [2, 3] [3, 1]) ∧
    Tensor.mk [1, 2, 3, 4, 5, 6] [2, 3] [3, 1] =
      Tensor.mk [1, 2, 3, 4, 5, 6] [2, 3] [3, 1] :=
  ⟨by decide,
   C9_no_partial_mutation_on_failure.1
     (Tensor.mk [1, 2, 3, 4, 5, 6] [2, 3] [3, 1]) [0, 9] 7
     (TensorError.indexOutOfBounds 9 1 3)
     (Tensor.mk [1, 2, 3, 4, 5, 6] [2, 3] [3, 1]) (by decide)⟩

/-- Claim C2: every tensor produced or left behind by a public operation
satisfies the four data-model invariants (`Tensor.Invariants`): the buffer
length is the shape product, the stride table has one entry per dimension
and is exactly the derived row-major table, and every valid multi-index's
offset lies inside the buffer.  The mutating operations are covered for
both their success and error outcomes. -/
theorem C2_invariants_after_public_ops :
    (∀ (data : List F32) (shape : List Nat) (t' : Tensor),
        Tensor.new data shape = some (Except.ok t') → t'.Invariants) ∧
    (∀ (shape : List Nat) (t' : Tensor),
        Tensor.zeros shape = some (Except.ok t') → t'.Invariants) ∧
    (∀ (shape : List Nat) (t' : Tensor),
        Tensor.ones shape = some (Except.ok t') → t'.Invariants) ∧
    (∀ (shape : List Nat) (v : F32) (t' : Tensor),
        Tensor.full shape v = some (Except.ok t') → t'.Invariants) ∧
    (∀ (t : Tensor) (idx : List Nat) (v : F32)
        (r : Except TensorError Unit) (t' : Tensor),
        t.WF → t.set idx v = some (r, t') → t'.Invariants) ∧
    (∀ (t : Tensor) (idx : List Nat) (off : Nat) (v : F32),
        t.WF → t.get_mut idx = some (Except.ok off) →
        Tensor.Invariants (Tensor.mk (t.data.set off v) t.shape t.strides)) ∧
    (∀ (t : Tensor) (ns : List Nat) (r : Except TensorError Unit) (t' : Tensor),
        t.WF → t.reshape ns = some (r, t') → t'.Invariants) ∧
    (∀ (t : Tensor) (ns : List Nat) (t' : Tensor),
        t.WF → t.reshaped ns = some (Except.ok t') → t'.Invariants) := by
  refine ⟨?_, ?_, ?_, ?_, ?_, ?_, ?_, ?_⟩
  · intro data shape t' h
    obtain ⟨hlen, hcs, hd, hs⟩ := new_ok_inv h
    exact wf_invariants (wf_of_parts (by rw [hd, hs]; exact hlen) (by rw [hs]; exact hcs))
  · intro shape t' h
    obtain ⟨hcs, hd, hs⟩ := zeros_ok_inv h
    exact wf_invariants (wf_of_parts (by rw [hd, hs]; simp) (by rw [hs]; exact hcs))
  · intro shape t' h
    obtain ⟨hcs, hd, hs⟩ := ones_ok_inv h
    exact wf_invariants (wf_of_parts (by rw [hd, hs]; simp) (by rw [hs]; exact hcs))
  · intro shape v t' h
    obtain ⟨hcs, hd, hs⟩ := full_ok_inv h
    exact wf_invariants (wf_of_parts (by rw [hd, hs]; simp) (by rw [hs]; exact hcs))
  · intro t idx v r t' ht h
    cases r with
    | error e => rw [set_error_unchanged h]; exact wf_invariants ht
    | ok u =>
      obtain ⟨index, _, _, ht'⟩ := set_ok_inv h
      rw [ht']
      exact wf_invariants (wf_set_data ht index v)
  · intro t idx off v ht h
    exact wf_invariants (wf_set_data ht off v)
  · intro t ns r t' ht h
    cases r with
    | error e => rw [(reshape_err_inv h).2.1]; exact wf_invariants ht
    | ok u =>
      obtain ⟨hprod, hcs, hd, hs⟩ := reshape_ok_inv h
      exact wf_invariants (wf_of_parts
        (by rw [hd, hs]; exact hprod.symm) (by rw [hs]; exact hcs))
  · intro t ns t' ht h
    obtain ⟨hprod, hcs, hd, hs⟩ := reshaped_ok_inv h
    exact wf_invariants (wf_of_parts
      (by rw [hd, hs]; exact hprod.symm) (by rw [hs]; exact hcs))

/-- Witness for C2: a concrete `new` succeeds and its result satisfies all
four invariants. -/
theorem C2_invariants_after_public_ops_witness :
    Tensor.new [1, 2, 3, 4, 5, 6] [2, 3] =
      some (Except.ok (Tensor.mk [1, 2, 3, 4, 5, 6] [2, 3] [3, 1])) ∧
    Tensor.Invariants (Tensor.mk [1, 2, 3, 4, 5, 6] [2, 3] [3, 1]) :=
  ⟨by decide,
   C2_invariants_after_public_ops.1 [1, 2, 3, 4, 5, 6] [2, 3]
     (Tensor.mk [1, 2, 3, 4, 5, 6] [2, 3] [3, 1]) (by decide)⟩

/-- Claim C3: on a well-formed tensor, `set` at a valid multi-index
succeeds; a subsequent `get` at the same index returns the stored value,
and `get` at every other valid multi-index returns exactly what it
returned before the `set`. -/
theorem C3_set_get_roundtrip (t : Tensor) (idx : List Nat) (v : F32)
    (ht : t.WF) (hv : Valid idx t.shape) :
    ∃ t', t.set idx v = some (Except.ok (), t') ∧
      t'.get idx = some (Except.ok v) ∧
      ∀ idx2, Valid idx2 t.shape → idx2 ≠ idx → t'.get idx2 = t.get idx2 := by
  refine ⟨{ t with data := t.data.set (dotProd idx t.strides) v },
    set_valid ht hv v, ?_, ?_⟩
  · have ht' := wf_set_data ht (dotProd idx t.strides) v
    have hg := (get_valid ht' (show Valid idx t.shape from hv)).1
    rw [hg]
    have hlt : dotProd idx t.strides < t.data.length := wf_inv4 ht idx hv
    rw [List.get?_eq_getElem?, List.getElem?_set_eq_of_lt v hlt]
    rfl
  · intro idx2 hv2 hne
    have ht' := wf_set_data ht (dotProd idx t.strides) v
    have hg1 := (get_valid ht' (show Valid idx2 t.shape from hv2)).1
    have hg2 := (get_valid ht hv2).1
    rw [hg1, hg2]
    have hoffne : dotProd idx t.strides ≠ dotProd idx2 t.strides := by
      intro he
      apply hne
      have hs := wf_strides ht
      rw [hs] at he
      exact dot_inj t.shape idx2 idx hv2 hv he.symm
    simp only [List.get?_eq_getElem?]
    rw [List.getElem?_set_ne hoffne]

/-- Witness for C3: storing `9` at `[0,1]` of a concrete `[2,3]` tensor. -/
theorem C3_set_get_roundtrip_witness :
    (Tensor.mk [1, 2, 3, 4, 5, 6] [2, 3] [3, 1]).WF ∧
    Valid [0, 1] [2, 3] ∧
    (∃ t', (Tensor.mk [1, 2, 3, 4, 5, 6] [2, 3] [3, 1]).set [0, 1] 9 =
        some (Except.ok (), t') ∧
      t'.get [0, 1] = some (Except.ok 9) ∧
      ∀ idx2, Valid idx2 (Tensor.mk [1, 2, 3, 4, 5, 6] [2, 3] [3, 1]).shape →
        idx2 ≠ [0, 1] →
        t'.get idx2 = (Tensor.mk [1, 2, 3, 4, 5, 6] [2, 3] [3, 1]).get idx2) :=
  ⟨by decide, by decide,
   C3_set_get_roundtrip (Tensor.mk [1, 2, 3, 4, 5, 6] [2, 3] [3, 1]) [0, 1] 9
     (by decide) (by decide)⟩

/-- Claim C4: `get` fails with the rank-mismatch error (given vs. expected
rank) exactly when the index list's length differs from the rank; otherwise
it fails with the index-out-of-bounds error (offending dimension, index,
bound — the first such dimension) exactly when some entry reaches its
dimension's size; otherwise it succeeds with the buffer element at the dot
product of `indices` and `strides`.  `get_mut` and `set` perform the
identical validation and address the identical flat slot.  The three cases
are exhaustive and mutually exclusive: a valid index has the right length,
and an index of the right length is either valid or has a least offending
dimension. -/
theorem C4_access_validation (t : Tensor) (idx : List Nat) (v : F32)
    (ht : t.WF) :
    (idx.length ≠ t.rank →
      t.get idx =
        some (Except.error (TensorError.rankMismatch idx.length t.rank)) ∧
      t.get_mut idx =
        some (Except.error (TensorError.rankMismatch idx.length t.rank)) ∧
      t.set idx v =
        some (Except.error (TensorError.rankMismatch idx.length t.rank), t)) ∧
    (idx.length = t.rank → ¬ Valid idx t.shape →
      ∃ d, d < idx.length ∧ t.shape.getD d 0 ≤ idx.getD d 0 ∧
        (∀ j, j < d → idx.getD j 0 < t.shape.getD j 0) ∧
        t.get idx = some (Except.error
          (TensorError.indexOutOfBounds (idx.getD d 0) d (t.shape.getD d 0))) ∧
        t.get_mut idx = some (Except.error
          (TensorError.indexOutOfBounds (idx.getD d 0) d (t.shape.getD d 0))) ∧
        t.set idx v = some (Except.error
          (TensorError.indexOutOfBounds (idx.getD d 0) d (t.shape.getD d 0)),
          t)) ∧
    (Valid idx t.shape →
      t.get idx = some (Except.ok (t.data.getD (dotProd idx t.strides) 0)) ∧
      t.get_mut idx = some (Except.ok (dotProd idx t.strides)) ∧
      t.set idx v = some (Except.ok (),
        { t with data := t.data.set (dotProd idx t.strides) v }) ∧
      dotProd idx t.strides < t.data.length) := by
  refine ⟨?_, ?_, ?_⟩
  · intro hne
    exact ⟨get_rank_mismatch hne, get_mut_rank_mismatch hne,
      set_rank_mismatch hne v⟩
  · intro hlen hnv
    obtain ⟨d, hd, hge, hfirst, hcb⟩ :=
      checkBounds_first_oob idx t.shape 0 (by rw [hlen]; rfl) hnv
    simp only [Nat.zero_add] at hcb
    exact ⟨d, hd, hge, hfirst, get_oob hlen hcb, get_mut_oob hlen hcb,
      set_oob hlen hcb v⟩
  · intro hv
    have hlt : dotProd idx t.strides < t.data.length := wf_inv4 ht idx hv
    refine ⟨?_, get_mut_valid ht hv, set_valid ht hv v, hlt⟩
    rw [(get_valid ht hv).1, List.get?_eq_getElem?,
      List.getElem?_eq_getElem hlt, List.getD_eq_getElem _ _ hlt]
    rfl

/-- Witness for C4 at a concrete `[2,3]` tensor and index `[1,2]`. -/
theorem C4_access_validation_witness :
    (Tensor.mk [1, 2, 3, 4, 5, 6] [2, 3] [3, 1]).WF ∧
    (([1, 2] : List Nat).length ≠
        (Tensor.mk [1, 2, 3, 4, 5, 6] [2, 3] [3, 1]).rank →
      (Tensor.mk [1, 2, 3, 4, 5, 6] [2, 3] [3, 1]).get [1, 2] =
        some (Except.error (TensorError.rankMismatch ([1, 2] : List Nat).length
          (Tensor.mk [1, 2, 3, 4, 5, 6] [2, 3] [3, 1]).rank)) ∧
      (Tensor.mk [1, 2, 3, 4, 5, 6] [2, 3] [3, 1]).get_mut [1, 2] =
        some (Except.error (TensorError.rankMismatch ([1, 2] : List Nat).length
          (Tensor.mk [1, 2, 3, 4, 5, 6] [2, 3] [3, 1]).rank)) ∧
      (Tensor.mk [1, 2, 3, 4, 5, 6] [2, 3] [3, 1]).set [1, 2] 9 =
        some (Except.error (TensorError.rankMismatch ([1, 2] : List Nat).length
          (Tensor.mk [1, 2, 3, 4, 5, 6] [2, 3] [3, 1]).rank),
          Tensor.mk [1, 2, 3, 4, 5, 6] [2, 3] [3, 1])) ∧
    (([1, 2] : List Nat).length =
        (Tensor.mk [1, 2, 3, 4, 5, 6] [2, 3] [3, 1]).rank →
      ¬ Valid [1, 2] (Tensor.mk [1, 2, 3, 4, 5, 6] [2, 3] [3, 1]).shape →
      ∃ d, d < ([1, 2] : List Nat).length ∧
        (Tensor.mk [1, 2, 3, 4, 5, 6] [2, 3] [3, 1]).shape.getD d 0 ≤
          ([1, 2] : List Nat).getD d 0 ∧
        (∀ j, j < d → ([1, 2] : List Nat).getD j 0 <
          (Tensor.mk [1, 2, 3, 4, 5, 6] [2, 3] [3, 1]).shape.getD j 0) ∧
        (Tensor.mk [1, 2, 3, 4, 5, 6] [2, 3] [3, 1]).get [1, 2] =
          some (Except.error (TensorError.indexOutOfBounds
            (([1, 2] : List Nat).getD d 0) d
            ((Tensor.mk [1, 2, 3, 4, 5, 6] [2, 3] [3, 1]).shape.getD d 0))) ∧
        (Tensor.mk [1, 2, 3, 4, 5, 6] [2, 3] [3, 1]).get_mut [1, 2] =
          some (Except.error (TensorError.indexOutOfBounds
            (([1, 2] : List Nat).getD d 0) d
            ((Tensor.mk [1, 2, 3, 4, 5, 6] [2, 3] [3, 1]).shape.getD d 0))) ∧
        (Tensor.mk [1, 2, 3, 4, 5, 6] [2, 3] [3, 1]).set [1, 2] 9 =
          some (Except.error (TensorError.indexOutOfBounds
            (([1, 2] : List Nat).getD d 0) d
            ((Tensor.mk [1, 2, 3, 4, 5, 6] [2, 3] [3, 1]).shape.getD d 0)),
            Tensor.mk [1, 2, 3, 4, 5, 6] [2, 3] [3, 1])) ∧
    (Valid [1, 2] (Tensor.mk [1, 2, 3, 4, 5, 6] [2, 3] [3, 1]).shape →
      (Tensor.mk [1, 2, 3, 4, 5, 6] [2, 3] [3, 1]).get [1, 2] =
        some (Except.ok ((Tensor.mk [1, 2, 3, 4, 5, 6] [2, 3] [3, 1]).data.getD
          (dotProd [1, 2]
            (Tensor.mk [1, 2, 3, 4, 5, 6] [2, 3] [3, 1]).strides) 0)) ∧
      (Tensor.mk [1, 2, 3, 4, 5, 6] [2, 3] [3, 1]).get_mut [1, 2] =
        some (Except.ok (dotProd [1, 2]
          (Tensor.mk [1, 2, 3, 4, 5, 6] [2, 3] [3, 1]).strides)) ∧
      (Tensor.mk [1, 2, 3, 4, 5, 6] [2, 3] [3, 1]).set [1, 2] 9 =
        some (Except.ok (),
          { Tensor.mk [1, 2, 3, 4, 5, 6] [2, 3] [3, 1] with
            data := (Tensor.mk [1, 2, 3, 4, 5, 6] [2, 3]
              [3, 1]).data.set (dotProd [1, 2]
                (Tensor.mk [1, 2, 3, 4, 5, 6] [2, 3] [3, 1]).strides) 9 }) ∧
      dotProd [1, 2] (Tensor.mk [1, 2, 3, 4, 5, 6] [2, 3] [3, 1]).strides <
        (Tensor.mk [1, 2, 3, 4, 5, 6] [2, 3] [3, 1]).data.length) :=
  ⟨by decide,
   C4_access_validation (Tensor.mk [1, 2, 3, 4, 5, 6] [2, 3] [3, 1]) [1, 2] 9
     (by decide)⟩
